import Mathlib

/-!
Verification of the client-side anomaly-detection engine
(`web-frontend/src/utils/anomalyDetection.js`) and its contract with the
table-rendering layer (`DataTable.jsx`).

JavaScript numbers are embedded as `JSNum`: an exact rational for finite
values, plus the two infinities and NaN, with the IEEE-754 special-value
rules for the arithmetic and comparisons the source uses.  (Finite-value
rounding is idealised to exact rational arithmetic.)  JavaScript cell
values are `JSVal`; plain objects keyed by column name are association
lists with JavaScript assignment semantics (replace in place, else append).
-/

/- The rational operations of the standard library are `@[irreducible]`,
which blocks `decide` on concrete statistics; the kernel itself never
relied on that marking, so restoring the default reducibility only lets
concrete values evaluate. -/
set_option allowUnsafeReducibility true

attribute [semireducible] Rat.add Rat.mul Rat.sub Rat.neg Rat.inv Rat.div Rat.ofScientific

/-- A JavaScript number: a finite value (embedded as an exact rational),
one of the two infinities, or NaN. -/
inductive JSNum where
  | fin (q : ℚ)
  | posInf
  | negInf
  | nan
  deriving DecidableEq

/-- `isNaN(v)` for a JavaScript number. -/
def JSNum.isNaN : JSNum → Bool
  | nan => true
  | _ => false

/-- Rank used to order the non-finite values below/above all finite ones. -/
def JSNum.rank : JSNum → Nat
  | negInf => 0
  | fin _ => 1
  | posInf => 2
  | nan => 3

/-- The ascending numeric order used by `sort((a, b) => a - b)` on the
values that survive the NaN filter: `-Infinity` below every finite value,
`+Infinity` above. -/
def jsLe (a b : JSNum) : Bool :=
  match a, b with
  | .fin x, .fin y => decide (x ≤ y)
  | _, _ => decide (a.rank ≤ b.rank)

/-- JavaScript `<` on numbers: any comparison with NaN is false. -/
def jsLt : JSNum → JSNum → Bool
  | .nan, _ => false
  | _, .nan => false
  | .fin x, .fin y => decide (x < y)
  | .negInf, .negInf => false
  | .negInf, _ => true
  | _, .negInf => false
  | .posInf, _ => false
  | .fin _, .posInf => true

/-- JavaScript `+` on numbers: NaN is absorbing, opposite infinities give
NaN, an infinity absorbs any finite summand. -/
def jsAdd : JSNum → JSNum → JSNum
  | .nan, _ => .nan
  | _, .nan => .nan
  | .posInf, .negInf => .nan
  | .negInf, .posInf => .nan
  | .posInf, _ => .posInf
  | _, .posInf => .posInf
  | .negInf, _ => .negInf
  | _, .negInf => .negInf
  | .fin a, .fin b => .fin (a + b)

/-- JavaScript unary minus on numbers. -/
def jsNeg : JSNum → JSNum
  | .nan => .nan
  | .posInf => .negInf
  | .negInf => .posInf
  | .fin a => .fin (-a)

/-- JavaScript `-` on numbers. -/
def jsSub (a b : JSNum) : JSNum := jsAdd a (jsNeg b)

/-- Multiplication by a positive finite constant (the source only
multiplies by the literals `1.5`, `3` and `100`). -/
def jsMulC (c : ℚ) : JSNum → JSNum
  | .fin q => .fin (c * q)
  | .posInf => .posInf
  | .negInf => .negInf
  | .nan => .nan

/-- JavaScript `/` on numbers.  Division of a nonzero finite value by zero
yields a signed infinity and `0 / 0` yields NaN.  (The embedding has no
negative zero; the source only divides by a positive count or by `mean`.) -/
def jsDiv : JSNum → JSNum → JSNum
  | .nan, _ => .nan
  | _, .nan => .nan
  | .posInf, .posInf => .nan
  | .posInf, .negInf => .nan
  | .negInf, .posInf => .nan
  | .negInf, .negInf => .nan
  | .posInf, .fin b => if b < 0 then .negInf else .posInf
  | .negInf, .fin b => if b < 0 then .posInf else .negInf
  | .fin _, .posInf => .fin 0
  | .fin _, .negInf => .fin 0
  | .fin a, .fin b =>
      if b = 0 then (if a = 0 then .nan else if a < 0 then .negInf else .posInf)
      else .fin (a / b)

/-- `Math.abs` on numbers. -/
def jsAbs : JSNum → JSNum
  | .fin q => .fin |q|
  | .posInf => .posInf
  | .negInf => .posInf
  | .nan => .nan

/-- A JavaScript cell value: a number, a string, `null`, or `undefined`. -/
inductive JSVal where
  | vnum (n : JSNum)
  | vstr (s : String)
  | vnull
  | vundef
  deriving DecidableEq

/-- The numeric filter used throughout the source:
`typeof v === "number" && !isNaN(v)`.  Note that this keeps the two
infinities: only NaN and non-numbers are rejected. -/
def jsIsNumber : JSVal → Bool
  | .vnum n => !n.isNaN
  | _ => false

/-- `values.filter(v => typeof v === "number" && !isNaN(v))`, with the
surviving elements read back as numbers. -/
def numericValues (values : List JSVal) : List JSNum :=
  values.filterMap fun v =>
    match v with
    | .vnum n => if n.isNaN then none else some n
    | _ => none

/-- The sort order as a proposition, for `List.insertionSort`. -/
def jsLeP (a b : JSNum) : Prop := jsLe a b = true

instance (a b : JSNum) : Decidable (jsLeP a b) :=
  inferInstanceAs (Decidable (jsLe a b = true))

/-- `[...numericValues].sort((a, b) => a - b)`: ascending numeric sort. -/
def jsSort (l : List JSNum) : List JSNum := List.insertionSort jsLeP l

/-- The statistics record returned by `calculateStatistics`. -/
structure Stats where
  q1 : JSNum
  q3 : JSNum
  iqr : JSNum
  median : JSNum
  mean : JSNum
  min : JSNum
  max : JSNum
  lowerBound : JSNum
  upperBound : JSNum
  lowerExtreme : JSNum
  upperExtreme : JSNum
  count : Nat
  deriving DecidableEq

/-- The body of `calculateStatistics` on a nonempty filtered value list.
`Math.floor(n * 0.25)`, `Math.floor(n * 0.5)` and `Math.floor(n * 0.75)`
are the natural-number divisions `n / 4`, `n / 2` and `3 * n / 4`. -/
def statsOf (nv : List JSNum) : Stats :=
  let sorted := jsSort nv
  let n := nv.length
  let q1 := sorted.getD (n / 4) .nan
  let q3 := sorted.getD (3 * n / 4) .nan
  let iqr := jsSub q3 q1
  { q1 := q1
    q3 := q3
    iqr := iqr
    median := sorted.getD (n / 2) .nan
    mean := jsDiv (nv.foldl jsAdd (.fin 0)) (.fin n)
    min := sorted.getD 0 .nan
    max := sorted.getD (n - 1) .nan
    lowerBound := jsSub q1 (jsMulC 1.5 iqr)
    upperBound := jsAdd q3 (jsMulC 1.5 iqr)
    lowerExtreme := jsSub q1 (jsMulC 3 iqr)
    upperExtreme := jsAdd q3 (jsMulC 3 iqr)
    count := n }

/-- `calculateStatistics(values)`: filter to numbers that are not NaN,
return `null` when nothing is left, otherwise the statistics record. -/
def calculateStatistics (values : List JSVal) : Option Stats :=
  if (numericValues values).length = 0 then none
  else some (statsOf (numericValues values))

/-- Anomaly direction tag (`"high"` / `"low"`). -/
inductive AnomalyType where
  | high
  | low
  deriving DecidableEq

/-- Anomaly severity tag (`"mild"` / `"extreme"`). -/
inductive AnomalySeverity where
  | mild
  | extreme
  deriving DecidableEq

/-- The record returned by `detectAnomaly`. -/
structure AnomalyInfo where
  isAnomaly : Bool
  type : Option AnomalyType
  severity : Option AnomalySeverity
  deriving DecidableEq

/-- `{ isAnomaly: false, type: null, severity: null }`. -/
def noAnomaly : AnomalyInfo := ⟨false, none, none⟩

/-- `detectAnomaly(value, stats)`: guard on null statistics and
non-numbers/NaN, then the four fence comparisons, extreme before mild. -/
def detectAnomaly (value : JSVal) (stats : Option Stats) : AnomalyInfo :=
  match stats, value with
  | some s, .vnum n =>
      if n.isNaN then noAnomaly
      else if jsLt n s.lowerExtreme then ⟨true, some .low, some .extreme⟩
      else if jsLt s.upperExtreme n then ⟨true, some .high, some .extreme⟩
      else if jsLt n s.lowerBound then ⟨true, some .low, some .mild⟩
      else if jsLt s.upperBound n then ⟨true, some .high, some .mild⟩
      else noAnomaly
  | _, _ => noAnomaly

/-- `Number.prototype.toFixed(d)` on the embedded numbers: the special
values render as `"NaN"` / `"Infinity"` / `"-Infinity"`, finite values as
a decimal numeral with `d` digits after the point. -/
def toFixed (d : Nat) : JSNum → String
  | .nan => "NaN"
  | .posInf => "Infinity"
  | .negInf => "-Infinity"
  | .fin q =>
      let m : ℤ := round (q * (10 : ℚ) ^ d)
      let sign := if m < 0 then "-" else ""
      let s := m.natAbs
      if d = 0 then sign ++ toString s
      else
        let fs := toString (s % 10 ^ d)
        sign ++ toString (s / 10 ^ d) ++ "." ++
          String.mk (List.replicate (d - fs.length) '0') ++ fs

/-- `getAnomalyTooltip(anomaly, stats, value)`. -/
def getAnomalyTooltip (anomaly : AnomalyInfo) (stats : Stats) (value : JSNum) :
    String :=
  if anomaly.isAnomaly = false then ""
  else
    let direction := if anomaly.type = some .high then "above" else "below"
    let bound := if anomaly.type = some .high then stats.upperBound else stats.lowerBound
    let diff := toFixed 2 (jsAbs (jsSub value bound))
    let percentDiff := toFixed 1 (jsMulC 100 (jsDiv (jsAbs (jsSub value stats.mean)) stats.mean))
    if anomaly.severity = some .extreme then
      "⚠️ Extreme outlier! " ++ percentDiff ++ "% " ++ direction ++
        " average (deviation: " ++ diff ++ ")"
    else
      "📊 Outlier detected: " ++ percentDiff ++ "% " ++ direction ++ " average"

/-- A row object: a mapping from column name to cell value. -/
abbrev Row := List (String × JSVal)

/-- `row[col]`: property read, `undefined` when the key is absent. -/
def rowGet : Row → String → JSVal
  | [], _ => .vundef
  | (k, v) :: rest, c => if k = c then v else rowGet rest c

/-- `obj[k] = v` on a plain object: replace the entry in place when the
key exists (JavaScript keeps the original insertion position), otherwise
append a new entry. -/
def objSet {α : Type} : List (String × α) → String → α → List (String × α)
  | [], k, v => [(k, v)]
  | (k0, v0) :: rest, k, v =>
      if k0 = k then (k, v) :: rest else (k0, v0) :: objSet rest k v

/-- `obj[k]` on a plain object. -/
def objGet {α : Type} : List (String × α) → String → Option α
  | [], _ => none
  | (k0, v0) :: rest, k => if k0 = k then some v0 else objGet rest k

/-- `data.map(row => row[col])`. -/
def colValues (data : List Row) (col : String) : List JSVal :=
  data.map fun row => rowGet row col

/-- The per-column anomaly counting loop of `analyzeDataset`. -/
def countAnomalies (data : List Row) (col : String) (stats : Option Stats) : Nat :=
  data.foldl (fun c row => if (detectAnomaly (rowGet row col) stats).isAnomaly then c + 1 else c) 0

/-- One iteration of the `numericColumns.forEach` loop of `analyzeDataset`:
store the statistics, then store the anomaly count. -/
def analyzeStep (data : List Row)
    (acc : List (String × Option Stats) × List (String × Nat)) (col : String) :
    List (String × Option Stats) × List (String × Nat) :=
  let stats := calculateStatistics (colValues data col)
  (objSet acc.1 col stats, objSet acc.2 col (countAnomalies data col stats))

/-- The record returned by `analyzeDataset`. -/
structure AnalysisResult where
  columnStats : List (String × Option Stats)
  anomalyCounts : List (String × Nat)
  numericColumns : List String
  totalAnomalies : Nat
  deriving DecidableEq

/-- `analyzeDataset(data, columns)` on two genuine arrays. -/
def analyzeDataset (data : List Row) (columns : List String) : AnalysisResult :=
  let numericColumns := columns.filter fun col => (colValues data col).any jsIsNumber
  let maps := numericColumns.foldl (analyzeStep data) ([], [])
  { columnStats := maps.1
    anomalyCounts := maps.2
    numericColumns := numericColumns
    totalAnomalies := (maps.2.map Prod.snd).foldl (· + ·) 0 }

/-- `analyzeDataset` at the JavaScript call boundary: `none` stands for an
argument that is absent or not an array (e.g. `null`/`undefined`).  When
`columns` is not an array, `columns.filter` throws a TypeError at once;
when `data` is not an array and the filter callback runs (i.e. `columns`
is nonempty), `data.map` throws a TypeError. -/
def analyzeDatasetDyn (data : Option (List Row)) (columns : Option (List String)) :
    Except String AnalysisResult :=
  match columns with
  | none => .error "TypeError"
  | some cols =>
      match data with
      | some d => .ok (analyzeDataset d cols)
      | none =>
          if cols = [] then
            .ok { columnStats := [], anomalyCounts := [], numericColumns := [],
                  totalAnomalies := 0 }
          else .error "TypeError"

/-- The `anomalyAnalysis` memo of `DataTable.jsx`:
`if (!data || data.length === 0 || !columns) return null` before calling
`analyzeDataset(data, columns)`. -/
def anomalyAnalysis (data : Option (List Row)) (columns : Option (List String)) :
    Except String (Option AnalysisResult) :=
  match data, columns with
  | none, _ => .ok none
  | some _, none => .ok none
  | some d, some c =>
      if d.length = 0 then .ok none
      else (analyzeDatasetDyn (some d) (some c)).map some

/-- Spec-side reading of the filter: the elements of the input that are
finite numbers (the spec excludes every non-finite number, so Infinity
and -Infinity are dropped here, unlike in `numericValues`). -/
def specFiniteElems (values : List JSVal) : List ℚ :=
  values.filterMap fun v =>
    match v with
    | .vnum (.fin q) => some q
    | _ => none

/-- Spec-side statistics formulas over a list of finite numeric values,
written exactly as the spec states them: sort ascending, floor-based
quartile indices, Tukey fences, arithmetic mean. -/
def statsSpec (qs : List ℚ) : Stats :=
  let n := qs.length
  let sorted := List.insertionSort (· ≤ ·) qs
  let q1 := sorted.getD (⌊(n : ℚ) * 0.25⌋₊) 0
  let q3 := sorted.getD (⌊(n : ℚ) * 0.75⌋₊) 0
  let iqr := q3 - q1
  { q1 := .fin q1
    q3 := .fin q3
    iqr := .fin iqr
    median := .fin (sorted.getD (⌊(n : ℚ) * 0.5⌋₊) 0)
    mean := .fin (qs.sum / (n : ℚ))
    min := .fin (sorted.getD 0 0)
    max := .fin (sorted.getD (n - 1) 0)
    lowerBound := .fin (q1 - 1.5 * iqr)
    upperBound := .fin (q3 + 1.5 * iqr)
    lowerExtreme := .fin (q1 - 3 * iqr)
    upperExtreme := .fin (q3 + 3 * iqr)
    count := n }

/-- Substring containment, used to state what a tooltip message includes. -/
def containsSub (needle hay : String) : Prop :=
  ∃ l r : List Char, hay.data = l ++ needle.data ++ r

/-! ### The shape of the filter -/

theorem numericValues_eq_nil_iff (values : List JSVal) :
    numericValues values = [] ↔ values.any jsIsNumber = false := by
  induction values with
  | nil => simp [numericValues]
  | cons v vs ih =>
      cases v with
      | vnum n =>
          cases n <;>
            simp_all [numericValues, jsIsNumber, JSNum.isNaN, List.filterMap_cons]
      | vstr s => simpa [numericValues, jsIsNumber, List.filterMap_cons] using ih
      | vnull => simpa [numericValues, jsIsNumber, List.filterMap_cons] using ih
      | vundef => simpa [numericValues, jsIsNumber, List.filterMap_cons] using ih

/-! ### Object-map lemmas -/

theorem objGet_objSet_self {α : Type} (o : List (String × α)) (k : String) (v : α) :
    objGet (objSet o k v) k = some v := by
  induction o with
  | nil => simp [objSet, objGet]
  | cons p rest ih =>
      by_cases h : p.1 = k <;> simp [objSet, objGet, h, ih]

theorem objGet_objSet_ne {α : Type} (o : List (String × α)) (k c : String) (v : α)
    (hne : k ≠ c) : objGet (objSet o k v) c = objGet o c := by
  induction o with
  | nil => simp [objSet, objGet, hne]
  | cons p rest ih =>
      by_cases h : p.1 = k
      · simp [objSet, objGet, h, hne, Ne.symm hne]
      · simp [objSet, objGet, h, ih]

theorem objSet_eq_append {α : Type} (o : List (String × α)) (k : String) (v : α)
    (h : objGet o k = none) : objSet o k v = o ++ [(k, v)] := by
  induction o with
  | nil => simp [objSet]
  | cons p rest ih =>
      by_cases hk : p.1 = k
      · simp [objGet, hk] at h
      · simp only [objGet, hk, if_false] at h
        simp [objSet, hk, ih h]

theorem objGet_append_right {α : Type} (o : List (String × α)) (k c : String) (v : α)
    (h : objGet o c = none) :
    objGet (o ++ [(k, v)]) c = if k = c then some v else none := by
  induction o with
  | nil => simp [objGet]
  | cons p rest ih =>
      by_cases hp : p.1 = c
      · simp [objGet, hp] at h
      · simp only [objGet, hp, if_false] at h
        simp [objGet, hp, ih h]

/-! ### The shape of the maps built by the forEach loop of analyzeDataset -/

theorem foldl_objSet_objGet {α : Type} (f : String → α) (ncols : List String) :
    ∀ (o : List (String × α)) (c : String),
      objGet (ncols.foldl (fun o col => objSet o col (f col)) o) c =
        if c ∈ ncols then some (f c) else objGet o c := by
  induction ncols with
  | nil => simp
  | cons col rest ih =>
      intro o c
      by_cases hmem : c ∈ rest
      · simp [List.foldl_cons, ih, hmem]
      · by_cases hc : c = col
        · subst hc
          simp [List.foldl_cons, ih, hmem, objGet_objSet_self]
        · simp [List.foldl_cons, ih, hmem, hc,
            objGet_objSet_ne _ _ _ _ (Ne.symm hc)]

theorem foldl_objSet_nodup {α : Type} (f : String → α) (ncols : List String) :
    ∀ (o : List (String × α)), (∀ c ∈ ncols, objGet o c = none) → ncols.Nodup →
      ncols.foldl (fun o col => objSet o col (f col)) o =
        o ++ ncols.map fun c => (c, f c) := by
  induction ncols with
  | nil => simp
  | cons col rest ih =>
      intro o hnone hnd
      have hcol : objGet o col = none := hnone col (by simp)
      have hrest : ∀ c ∈ rest, objGet (o ++ [(col, f col)]) c = none := by
        intro c hc
        rw [objGet_append_right _ _ _ _ (hnone c (by simp [hc]))]
        have : col ≠ c := fun h => (List.nodup_cons.mp hnd).1 (h ▸ hc)
        simp [this]
      rw [List.foldl_cons, objSet_eq_append _ _ _ hcol,
        ih _ hrest (List.nodup_cons.mp hnd).2, List.append_assoc]
      rfl

theorem analyzeFold_fst (data : List Row) (ncols : List String) :
    ∀ (o₁ : List (String × Option Stats)) (o₂ : List (String × Nat)),
      (ncols.foldl (analyzeStep data) (o₁, o₂)).1 =
        ncols.foldl (fun o col => objSet o col (calculateStatistics (colValues data col))) o₁ := by
  induction ncols with
  | nil => simp
  | cons col rest ih => intro o₁ o₂; simp [List.foldl_cons, analyzeStep, ih]

theorem analyzeFold_snd (data : List Row) (ncols : List String) :
    ∀ (o₁ : List (String × Option Stats)) (o₂ : List (String × Nat)),
      (ncols.foldl (analyzeStep data) (o₁, o₂)).2 =
        ncols.foldl (fun o col =>
          objSet o col (countAnomalies data col (calculateStatistics (colValues data col)))) o₂ := by
  induction ncols with
  | nil => simp
  | cons col rest ih => intro o₁ o₂; simp [List.foldl_cons, analyzeStep, ih]

theorem foldl_add_eq_sum (l : List Nat) : ∀ c : Nat, l.foldl (· + ·) c = c + l.sum := by
  induction l with
  | nil => simp
  | cons a t ih => intro c; simp [List.foldl_cons, ih, Nat.add_assoc]

/-! ### Relating the code on finite numbers to rational arithmetic -/

theorem jsSub_fin (a b : ℚ) : jsSub (.fin a) (.fin b) = .fin (a - b) := by
  simp [jsSub, jsAdd, jsNeg, sub_eq_add_neg]

theorem jsMulC_fin (c a : ℚ) : jsMulC c (.fin a) = .fin (c * a) := rfl

theorem jsDiv_fin (a b : ℚ) (hb : b ≠ 0) : jsDiv (.fin a) (.fin b) = .fin (a / b) := by
  simp [jsDiv, hb]

theorem getD_map_fin : ∀ (l : List ℚ) (i : Nat), i < l.length →
    (l.map JSNum.fin).getD i .nan = .fin (l.getD i 0)
  | a :: l, 0, _ => rfl
  | a :: l, i + 1, h => getD_map_fin l i (by simpa using h)

theorem jsSort_map_fin (qs : List ℚ) :
    jsSort (qs.map JSNum.fin) = (List.insertionSort (· ≤ ·) qs).map JSNum.fin := by
  refine (List.map_insertionSort (· ≤ ·) jsLeP JSNum.fin qs ?_).symm
  intro a _ b _
  simp [jsLeP, jsLe]

theorem foldl_jsAdd_fin : ∀ (qs : List ℚ) (c : ℚ),
    (qs.map JSNum.fin).foldl jsAdd (.fin c) = .fin (c + qs.sum)
  | [], c => by simp
  | q :: qs, c => by
      simp only [List.map_cons, List.foldl_cons, jsAdd, List.sum_cons]
      rw [foldl_jsAdd_fin qs (c + q)]
      ring_nf

theorem floor_quarter (n : Nat) : ⌊(n : ℚ) * 0.25⌋₊ = n / 4 := by
  rw [show (0.25 : ℚ) = 1 / 4 by norm_num, mul_one_div,
    show (4 : ℚ) = ((4 : ℕ) : ℚ) by norm_num, Nat.floor_div_nat, Nat.floor_natCast]

theorem floor_half (n : Nat) : ⌊(n : ℚ) * 0.5⌋₊ = n / 2 := by
  rw [show (0.5 : ℚ) = 1 / 2 by norm_num, mul_one_div,
    show (2 : ℚ) = ((2 : ℕ) : ℚ) by norm_num, Nat.floor_div_nat, Nat.floor_natCast]

theorem floor_three_quarters (n : Nat) : ⌊(n : ℚ) * 0.75⌋₊ = 3 * n / 4 := by
  rw [show (0.75 : ℚ) = 3 / 4 by norm_num,
    show (n : ℚ) * (3 / 4) = ((3 * n : ℕ) : ℚ) / ((4 : ℕ) : ℚ) by push_cast; ring,
    Nat.floor_div_nat, Nat.floor_natCast]

theorem jsAdd_fin (a b : ℚ) : jsAdd (.fin a) (.fin b) = .fin (a + b) := rfl

theorem statsOf_map_fin (qs : List ℚ) (h : qs ≠ []) :
    statsOf (qs.map JSNum.fin) = statsSpec qs := by
  have hn : 0 < qs.length := List.length_pos.mpr h
  have hlen : (List.insertionSort (· ≤ ·) qs).length = qs.length :=
    List.length_insertionSort _ _
  have h4 : qs.length / 4 < (List.insertionSort (· ≤ ·) qs).length := by
    rw [hlen]; exact Nat.div_lt_self hn (by norm_num)
  have h2 : qs.length / 2 < (List.insertionSort (· ≤ ·) qs).length := by
    rw [hlen]; exact Nat.div_lt_self hn (by norm_num)
  have h34 : 3 * qs.length / 4 < (List.insertionSort (· ≤ ·) qs).length := by
    rw [hlen]; omega
  have h1 : qs.length - 1 < (List.insertionSort (· ≤ ·) qs).length := by
    rw [hlen]; omega
  have h0 : 0 < (List.insertionSort (· ≤ ·) qs).length := by rw [hlen]; exact hn
  have hq : ((qs.length : ℚ)) ≠ 0 := Nat.cast_ne_zero.mpr hn.ne'
  simp only [statsOf, statsSpec, jsSort_map_fin, List.length_map,
    floor_quarter, floor_half, floor_three_quarters,
    getD_map_fin _ _ h4, getD_map_fin _ _ h2, getD_map_fin _ _ h34,
    getD_map_fin _ _ h1, getD_map_fin _ _ h0,
    foldl_jsAdd_fin, jsDiv_fin _ _ hq, jsSub_fin, jsMulC_fin, jsAdd_fin,
    zero_add]

/-- `true` exactly on string values (used to state the all-strings case). -/
def jsIsString : JSVal → Bool
  | .vstr _ => true
  | _ => false

/-- Scenario A of the spec: the raw values `[10, 12, 11, 13, 100]`. -/
def scenarioAValues : List JSVal :=
  [.vnum (.fin 10), .vnum (.fin 12), .vnum (.fin 11), .vnum (.fin 13), .vnum (.fin 100)]

/-- A two-value column `[-1, 1]` whose mean is exactly zero. -/
def meanZeroValues : List JSVal := [.vnum (.fin (-1)), .vnum (.fin 1)]

/-- C4: for every input whose filtered values are the finite rationals `qs`
(nonempty), `calculateStatistics` returns exactly the statistics the spec
formulas prescribe: floor-indexed quartiles on the ascending sort, Tukey
fences at 1.5 and 3 IQR, the arithmetic mean, first/last of the sorted
sequence; and on Scenario A `[10, 12, 11, 13, 100]` it returns q1 = 11,
median = 12, q3 = 13, iqr = 2, mild bounds [8, 16], extreme bounds [5, 19],
and the value 100 classifies as an extreme high anomaly. -/
theorem calculateStatistics_spec_formulas :
    (∀ (values : List JSVal) (qs : List ℚ),
        numericValues values = qs.map JSNum.fin → qs ≠ [] →
        calculateStatistics values = some (statsSpec qs)) ∧
    calculateStatistics scenarioAValues =
      some ⟨.fin 11, .fin 13, .fin 2, .fin 12, .fin (146 / 5), .fin 10, .fin 100,
        .fin 8, .fin 16, .fin 5, .fin 19, 5⟩ ∧
    detectAnomaly (.vnum (.fin 100)) (calculateStatistics scenarioAValues) =
      ⟨true, some .high, some .extreme⟩ := by
  refine ⟨?_, by decide, by decide⟩
  intro values qs hnv hne
  unfold calculateStatistics
  rw [hnv, if_neg (by simpa [List.length_eq_zero] using hne)]
  exact congrArg some (statsOf_map_fin qs hne)

/-- Witness for C4: the formulas applied to the concrete column `[2, 9, 4]`. -/
theorem calculateStatistics_spec_formulas_witness :
    calculateStatistics [.vstr "x", .vnum (.fin 2), .vnum (.fin 9), .vnum (.fin 4)] =
      some (statsSpec [2, 9, 4]) :=
  calculateStatistics_spec_formulas.1
    [.vstr "x", .vnum (.fin 2), .vnum (.fin 9), .vnum (.fin 4)] [2, 9, 4]
    (by decide) (by decide)

/-- Counterexample to C2 as stated: `Infinity` passes the source filter
`typeof v === "number" && !isNaN(v)`, so an input with no finite numeric
element still yields a statistics object (count 1) instead of null. -/
theorem calculateStatistics_infinity_counterexample :
    specFiniteElems [.vnum .posInf] = [] ∧
    (calculateStatistics [.vnum .posInf]).map Stats.count = some 1 := by decide

/-- C2 amended: `calculateStatistics` computes over exactly the numeric,
non-NaN elements of the input (strings, null, undefined and NaN are
excluded, but the infinities are kept); it returns null exactly when no
such element exists, and `count` is the number of such elements.  On
`[5, "x", null, NaN, 10]` it computes over `[5, 10]` with count 2. -/
theorem calculateStatistics_filtering :
    (∀ values : List JSVal,
        (calculateStatistics values = none ↔ numericValues values = []) ∧
        ∀ s, calculateStatistics values = some s →
          s.count = (numericValues values).length) ∧
    calculateStatistics [.vnum (.fin 5), .vstr "x", .vnull, .vnum .nan, .vnum (.fin 10)] =
      calculateStatistics [.vnum (.fin 5), .vnum (.fin 10)] ∧
    (calculateStatistics
      [.vnum (.fin 5), .vstr "x", .vnull, .vnum .nan, .vnum (.fin 10)]).map Stats.count =
      some 2 := by
  refine ⟨fun values => ⟨?_, ?_⟩, by decide, by decide⟩
  · unfold calculateStatistics
    by_cases h : (numericValues values).length = 0
    · simp [h, List.length_eq_zero.mp h]
    · have : numericValues values ≠ [] := fun hnil => h (by rw [hnil]; rfl)
      simp [h, this]
  · intro s hs
    unfold calculateStatistics at hs
    by_cases h : (numericValues values).length = 0
    · simp [h] at hs
    · rw [if_neg h, Option.some_inj] at hs
      rw [← hs]
      rfl

/-- Witness for C2: the count field equals the filtered length at `[7]`. -/
theorem calculateStatistics_filtering_witness :
    (statsOf (numericValues [.vnum (.fin 7)])).count =
      (numericValues [.vnum (.fin 7)]).length :=
  (calculateStatistics_filtering.1 [.vnum (.fin 7)]).2
    (statsOf (numericValues [.vnum (.fin 7)])) (by decide)

/-! ### Projections of the analysis result -/

theorem analyzeDataset_numericColumns (data : List Row) (columns : List String) :
    (analyzeDataset data columns).numericColumns =
      columns.filter fun col => (colValues data col).any jsIsNumber := rfl

theorem analyzeDataset_columnStats_objGet (data : List Row) (columns : List String)
    (col : String) :
    objGet (analyzeDataset data columns).columnStats col =
      if col ∈ (analyzeDataset data columns).numericColumns then
        some (calculateStatistics (colValues data col))
      else none := by
  show objGet ((columns.filter fun col => (colValues data col).any jsIsNumber).foldl
    (analyzeStep data) ([], [])).1 col = _
  rw [analyzeFold_fst, foldl_objSet_objGet]
  rw [analyzeDataset_numericColumns]
  by_cases h : col ∈ columns.filter fun col => (colValues data col).any jsIsNumber <;>
    simp [h, objGet]

theorem analyzeDataset_anomalyCounts_objGet (data : List Row) (columns : List String)
    (col : String) :
    objGet (analyzeDataset data columns).anomalyCounts col =
      if col ∈ (analyzeDataset data columns).numericColumns then
        some (countAnomalies data col (calculateStatistics (colValues data col)))
      else none := by
  show objGet ((columns.filter fun col => (colValues data col).any jsIsNumber).foldl
    (analyzeStep data) ([], [])).2 col = _
  rw [analyzeFold_snd, foldl_objSet_objGet]
  rw [analyzeDataset_numericColumns]
  by_cases h : col ∈ columns.filter fun col => (colValues data col).any jsIsNumber <;>
    simp [h, objGet]

/-- Counterexample to C3 as stated: a column whose only value is
`Infinity` has no finite value yet is admitted to `numericColumns`. -/
theorem numericColumns_infinity_counterexample :
    (analyzeDataset [[("a", .vnum .posInf)]] ["a"]).numericColumns = ["a"] ∧
    specFiniteElems (colValues [[("a", .vnum .posInf)]] "a") = [] := by decide

/-- C3 amended: `numericColumns` is a subsequence of `columns`, and a
column is admitted exactly when some value of it is a number other than
NaN (the infinities qualify); a column containing only strings is never
admitted and has no entry in `columnStats` or `anomalyCounts`. -/
theorem numericColumns_membership :
    ∀ (data : List Row) (columns : List String),
      (analyzeDataset data columns).numericColumns.Sublist columns ∧
      (∀ col, col ∈ (analyzeDataset data columns).numericColumns ↔
        col ∈ columns ∧ (colValues data col).any jsIsNumber = true) ∧
      (∀ col, (∀ v ∈ colValues data col, jsIsString v = true) →
        col ∉ (analyzeDataset data columns).numericColumns ∧
        objGet (analyzeDataset data columns).columnStats col = none ∧
        objGet (analyzeDataset data columns).anomalyCounts col = none) := by
  intro data columns
  refine ⟨?_, ?_, ?_⟩
  · rw [analyzeDataset_numericColumns]
    exact List.filter_sublist _
  · intro col
    rw [analyzeDataset_numericColumns, List.mem_filter]
  · intro col hstr
    have hany : (colValues data col).any jsIsNumber = false := by
      rw [← Bool.not_eq_true, List.any_eq_true]
      rintro ⟨v, hv, hnum⟩
      have := hstr v hv
      cases v <;> simp_all [jsIsString, jsIsNumber]
    have hmem : col ∉ (analyzeDataset data columns).numericColumns := by
      rw [analyzeDataset_numericColumns, List.mem_filter]
      rintro ⟨-, h⟩
      rw [hany] at h
      cases h
    refine ⟨hmem, ?_, ?_⟩
    · rw [analyzeDataset_columnStats_objGet, if_neg hmem]
    · rw [analyzeDataset_anomalyCounts_objGet, if_neg hmem]

/-- Witness for C3: membership and exclusion at a concrete table. -/
theorem numericColumns_membership_witness :
    "b" ∉ (analyzeDataset [[("a", .vnum (.fin 1)), ("b", .vstr "ok")]] ["a", "b"]).numericColumns ∧
    objGet (analyzeDataset [[("a", .vnum (.fin 1)), ("b", .vstr "ok")]] ["a", "b"]).columnStats
      "b" = none :=
  ⟨((numericColumns_membership [[("a", .vnum (.fin 1)), ("b", .vstr "ok")]] ["a", "b"]).2.2
      "b" (by decide)).1,
   ((numericColumns_membership [[("a", .vnum (.fin 1)), ("b", .vstr "ok")]] ["a", "b"]).2.2
      "b" (by decide)).2.1⟩

/-- C10: the key sets of `columnStats` and `anomalyCounts` are exactly the
columns of `numericColumns`, and every admitted column has a non-null
statistics entry with `count ≥ 1` (admission and the statistics filter use
the same predicate, so the null branch is unreachable for admitted
columns). -/
theorem analyzeDataset_maps_wellformed :
    ∀ (data : List Row) (columns : List String) (col : String),
      (objGet (analyzeDataset data columns).columnStats col ≠ none ↔
        col ∈ (analyzeDataset data columns).numericColumns) ∧
      (objGet (analyzeDataset data columns).anomalyCounts col ≠ none ↔
        col ∈ (analyzeDataset data columns).numericColumns) ∧
      (col ∈ (analyzeDataset data columns).numericColumns →
        ∃ st, objGet (analyzeDataset data columns).columnStats col = some (some st) ∧
          1 ≤ st.count) := by
  intro data columns col
  refine ⟨?_, ?_, ?_⟩
  · rw [analyzeDataset_columnStats_objGet]
    by_cases h : col ∈ (analyzeDataset data columns).numericColumns <;> simp [h]
  · rw [analyzeDataset_anomalyCounts_objGet]
    by_cases h : col ∈ (analyzeDataset data columns).numericColumns <;> simp [h]
  · intro hmem
    have hany : (colValues data col).any jsIsNumber = true := by
      rw [analyzeDataset_numericColumns, List.mem_filter] at hmem
      exact hmem.2
    have hne : numericValues (colValues data col) ≠ [] := by
      intro hnil
      rw [(numericValues_eq_nil_iff _).mp hnil] at hany
      cases hany
    have hlen : (numericValues (colValues data col)).length ≠ 0 :=
      fun h0 => hne (List.length_eq_zero.mp h0)
    refine ⟨statsOf (numericValues (colValues data col)), ?_, ?_⟩
    · rw [analyzeDataset_columnStats_objGet, if_pos hmem]
      unfold calculateStatistics
      rw [if_neg hlen]
    · show 1 ≤ (numericValues (colValues data col)).length
      omega

/-- Witness for C10: the statistics entry of an admitted column. -/
theorem analyzeDataset_maps_wellformed_witness :
    ∃ st, objGet (analyzeDataset [[("a", .vnum (.fin 3))]] ["a"]).columnStats "a" =
      some (some st) ∧ 1 ≤ st.count :=
  (analyzeDataset_maps_wellformed [[("a", .vnum (.fin 3))]] ["a"] "a").2.2 (by decide)

/-- C6: `totalAnomalies` is the sum of the values of `anomalyCounts`; and
for unique column names (the input contract of the dataset boundary) this
equals the sum of `anomalyCounts[c]` over the columns of `numericColumns`. -/
theorem totalAnomalies_count_consistency :
    ∀ (data : List Row) (columns : List String),
      (analyzeDataset data columns).totalAnomalies =
        ((analyzeDataset data columns).anomalyCounts.map Prod.snd).sum ∧
      (columns.Nodup →
        (analyzeDataset data columns).totalAnomalies =
          ((analyzeDataset data columns).numericColumns.map fun c =>
            (objGet (analyzeDataset data columns).anomalyCounts c).getD 0).sum) := by
  intro data columns
  constructor
  · show (((analyzeDataset data columns).anomalyCounts.map Prod.snd).foldl (· + ·) 0) = _
    rw [foldl_add_eq_sum]
    omega
  · intro hnd
    have hmap : (analyzeDataset data columns).numericColumns.map
        (fun c => (objGet (analyzeDataset data columns).anomalyCounts c).getD 0) =
        (analyzeDataset data columns).numericColumns.map fun c =>
          countAnomalies data c (calculateStatistics (colValues data c)) := by
      refine List.map_congr_left fun c hc => ?_
      rw [analyzeDataset_anomalyCounts_objGet, if_pos hc]
      rfl
    have hndf : ((analyzeDataset data columns).numericColumns).Nodup := by
      rw [analyzeDataset_numericColumns]
      exact hnd.filter _
    have hac : (analyzeDataset data columns).anomalyCounts =
        (analyzeDataset data columns).numericColumns.map fun c =>
          (c, countAnomalies data c (calculateStatistics (colValues data c))) := by
      show ((analyzeDataset data columns).numericColumns.foldl
        (analyzeStep data) ([], [])).2 = _
      rw [analyzeFold_snd, foldl_objSet_nodup _ _ [] (fun c _ => rfl) hndf]
      rfl
    rw [hmap]
    show (((analyzeDataset data columns).anomalyCounts.map Prod.snd).foldl (· + ·) 0) = _
    rw [foldl_add_eq_sum, hac, List.map_map, Nat.zero_add]
    rfl

/-- Witness for C6: count consistency on a concrete two-column table. -/
theorem totalAnomalies_count_consistency_witness :
    (analyzeDataset
      [[("a", .vnum (.fin 1)), ("b", .vstr "u")], [("a", .vnum (.fin 1))],
       [("a", .vnum (.fin 1))], [("a", .vnum (.fin 1))], [("a", .vnum (.fin 100))]]
      ["a", "b"]).totalAnomalies =
      ((analyzeDataset
        [[("a", .vnum (.fin 1)), ("b", .vstr "u")], [("a", .vnum (.fin 1))],
         [("a", .vnum (.fin 1))], [("a", .vnum (.fin 1))], [("a", .vnum (.fin 100))]]
        ["a", "b"]).numericColumns.map fun c =>
        (objGet (analyzeDataset
          [[("a", .vnum (.fin 1)), ("b", .vstr "u")], [("a", .vnum (.fin 1))],
           [("a", .vnum (.fin 1))], [("a", .vnum (.fin 1))], [("a", .vnum (.fin 100))]]
          ["a", "b"]).anomalyCounts c).getD 0).sum :=
  (totalAnomalies_count_consistency
    [[("a", .vnum (.fin 1)), ("b", .vstr "u")], [("a", .vnum (.fin 1))],
     [("a", .vnum (.fin 1))], [("a", .vnum (.fin 1))], [("a", .vnum (.fin 100))]]
    ["a", "b"]).2 (by decide)

/-- Counterexample to C5 as stated: `Infinity` is not a finite number, yet
`detectAnomaly` does not return the no-anomaly record for it — the guard
only rejects non-numbers and NaN, so `Infinity` reaches the fence
comparisons and classifies as an extreme high outlier. -/
theorem detectAnomaly_infinity_counterexample :
    detectAnomaly (.vnum .posInf) (calculateStatistics scenarioAValues) =
      ⟨true, some .high, some .extreme⟩ ∧
    detectAnomaly (.vnum .posInf) (calculateStatistics scenarioAValues) ≠ noAnomaly := by
  decide

/-- C5 amended: `detectAnomaly` returns exactly one of the five outcomes;
`isAnomaly` is false exactly when both tags are null; null statistics,
non-numbers and NaN short-circuit to the no-anomaly record; and for a
non-NaN number the four fence comparisons are checked in order, extreme
before mild (a non-NaN, non-finite number such as `Infinity` is classified
by those comparisons rather than rejected). -/
theorem detectAnomaly_classification :
    ∀ (v : JSVal) (st : Option Stats),
      (detectAnomaly v st = noAnomaly ∨
       detectAnomaly v st = ⟨true, some .low, some .extreme⟩ ∨
       detectAnomaly v st = ⟨true, some .high, some .extreme⟩ ∨
       detectAnomaly v st = ⟨true, some .low, some .mild⟩ ∨
       detectAnomaly v st = ⟨true, some .high, some .mild⟩) ∧
      ((detectAnomaly v st).isAnomaly = false ↔
        (detectAnomaly v st).type = none ∧ (detectAnomaly v st).severity = none) ∧
      (st = none → detectAnomaly v st = noAnomaly) ∧
      (jsIsNumber v = false → detectAnomaly v st = noAnomaly) ∧
      (∀ s n, st = some s → v = .vnum n → n.isNaN = false →
        detectAnomaly v st =
          if jsLt n s.lowerExtreme then ⟨true, some .low, some .extreme⟩
          else if jsLt s.upperExtreme n then ⟨true, some .high, some .extreme⟩
          else if jsLt n s.lowerBound then ⟨true, some .low, some .mild⟩
          else if jsLt s.upperBound n then ⟨true, some .high, some .mild⟩
          else noAnomaly) := by
  intro v st
  cases st with
  | none => cases v <;> simp [detectAnomaly, noAnomaly]
  | some s =>
      cases v with
      | vnum n =>
          by_cases hnan : n.isNaN = true
          · simp [detectAnomaly, noAnomaly, jsIsNumber, hnan]
          · simp only [detectAnomaly, hnan, Bool.false_eq_true, if_false]
            refine ⟨?_, ?_, by simp, ?_, ?_⟩
            · split_ifs <;> simp [noAnomaly]
            · split_ifs <;> simp [noAnomaly]
            · simp [jsIsNumber, hnan]
            · rintro s' n' hs hn -
              cases hs
              cases hn
              rfl
      | vstr t => simp [detectAnomaly, noAnomaly, jsIsNumber]
      | vnull => simp [detectAnomaly, noAnomaly, jsIsNumber]
      | vundef => simp [detectAnomaly, noAnomaly, jsIsNumber]

/-- Witness for C5: the guard cases and the ordered comparisons at
concrete inputs. -/
theorem detectAnomaly_classification_witness :
    detectAnomaly (.vnum (.fin 3)) none = noAnomaly ∧
    detectAnomaly (.vstr "x") (calculateStatistics scenarioAValues) = noAnomaly :=
  ⟨(detectAnomaly_classification (.vnum (.fin 3)) none).2.2.1 rfl,
   (detectAnomaly_classification (.vstr "x") (calculateStatistics scenarioAValues)).2.2.2.1
     (by decide)⟩

/-- On an empty table or an empty column list the analysis is the empty
record: no numeric columns, no statistics, zero anomalies. -/
theorem analyzeDataset_empty (data : List Row) (cols : List String)
    (h : data = [] ∨ cols = []) : analyzeDataset data cols = ⟨[], [], [], 0⟩ := by
  rcases h with h | h
  · subst h
    have hfil : (cols.filter fun col => (colValues ([] : List Row) col).any jsIsNumber) = [] := by
      simp [colValues]
    simp only [analyzeDataset, hfil]
    rfl
  · subst h
    rfl

/-- Counterexample to C1 as stated: when `data` is not an array and
`columns` is a nonempty array, and when `columns` is absent, the analyzer
itself throws a TypeError instead of returning a null/empty sentinel. -/
theorem analyzeDataset_nonarray_counterexample :
    analyzeDatasetDyn none (some ["temp"]) = .error "TypeError" ∧
    analyzeDatasetDyn (some [[("temp", .vnum (.fin 1))]]) none = .error "TypeError" :=
  ⟨rfl, rfl⟩

/-- C1 amended: `analyzeDataset` on two genuine arrays never throws and
returns the empty record when `data` or `columns` is empty (callers treat
it as "no anomaly highlighting"); but when `columns` is absent, or `data`
is not an array while `columns` is nonempty, `analyzeDataset` itself
throws a TypeError — the null sentinel for those inputs is produced by the
caller guard in `DataTable.jsx`, which never sees an exception. -/
theorem analyzeDataset_malformed_inputs :
    (∀ (data : List Row) (cols : List String), data = [] ∨ cols = [] →
      analyzeDatasetDyn (some data) (some cols) = .ok ⟨[], [], [], 0⟩) ∧
    (∀ cols : List String, cols ≠ [] →
      analyzeDatasetDyn none (some cols) = .error "TypeError") ∧
    (∀ data : Option (List Row), analyzeDatasetDyn data none = .error "TypeError") ∧
    (∀ (data : Option (List Row)) (cols : Option (List String)),
      ∃ r, anomalyAnalysis data cols = .ok r) := by
  refine ⟨?_, ?_, ?_, ?_⟩
  · intro data cols h
    show Except.ok (analyzeDataset data cols) = _
    rw [analyzeDataset_empty data cols h]
  · intro cols h
    simp [analyzeDatasetDyn, h]
  · intro data
    rfl
  · intro data cols
    match data, cols with
    | none, _ => exact ⟨none, rfl⟩
    | some d, none => exact ⟨none, rfl⟩
    | some d, some c =>
        by_cases h : d.length = 0
        · exact ⟨none, by simp [anomalyAnalysis, h]⟩
        · exact ⟨some (analyzeDataset d c), by simp [anomalyAnalysis, analyzeDatasetDyn, h, Except.map]⟩

/-- Witness for C1: the empty-data call returns the empty record, and the
caller guard yields a null analysis for absent data. -/
theorem analyzeDataset_malformed_inputs_witness :
    analyzeDatasetDyn (some []) (some ["temp"]) = .ok ⟨[], [], [], 0⟩ ∧
    analyzeDatasetDyn none (some ["temp"]) = .error "TypeError" :=
  ⟨analyzeDataset_malformed_inputs.1 [] ["temp"] (Or.inl rfl),
   analyzeDataset_malformed_inputs.2.1 ["temp"] (by decide)⟩

/-- C9: for a column with mean exactly zero (`[-1, 1]`), the value 5 is a
mild high anomaly, and the unguarded division by `stats.mean` in the
tooltip percentage renders `Infinity` in the message rather than raising
an error or being special-cased. -/
theorem getAnomalyTooltip_mean_zero_infinity :
    (calculateStatistics meanZeroValues).map Stats.mean = some (.fin 0) ∧
    detectAnomaly (.vnum (.fin 5)) (calculateStatistics meanZeroValues) =
      ⟨true, some .high, some .mild⟩ ∧
    (calculateStatistics meanZeroValues).map (fun s =>
      getAnomalyTooltip (detectAnomaly (.vnum (.fin 5)) (calculateStatistics meanZeroValues))
        s (.fin 5)) =
      some "📊 Outlier detected: Infinity% above average" := by decide

/-- C8: the tooltip is empty exactly when there is no anomaly; an anomaly
message always contains the rendered percent-from-mean figure and the
direction word (`"above"` for high, `"below"` otherwise); the extreme
message additionally contains the rendered deviation-from-bound figure;
and an extreme-severity message is never equal to a non-extreme one. -/
theorem getAnomalyTooltip_contract :
    ∀ (a : AnomalyInfo) (s : Stats) (v : JSNum),
      (a.isAnomaly = false → getAnomalyTooltip a s v = "") ∧
      (a.isAnomaly = true →
        containsSub (toFixed 1 (jsMulC 100 (jsDiv (jsAbs (jsSub v s.mean)) s.mean)))
          (getAnomalyTooltip a s v) ∧
        containsSub (if a.type = some .high then "above" else "below")
          (getAnomalyTooltip a s v) ∧
        (a.severity = some .extreme →
          containsSub (toFixed 2 (jsAbs (jsSub v
            (if a.type = some .high then s.upperBound else s.lowerBound))))
            (getAnomalyTooltip a s v)) ∧
        (∀ (a' : AnomalyInfo) (s' : Stats) (v' : JSNum), a'.isAnomaly = true →
          a.severity = some .extreme → a'.severity ≠ some .extreme →
          getAnomalyTooltip a s v ≠ getAnomalyTooltip a' s' v')) := by
  intro a s v
  constructor
  · intro h
    simp [getAnomalyTooltip, h]
  · intro ha
    have hni : ¬(a.isAnomaly = false) := by simp [ha]
    by_cases hsev : a.severity = some .extreme
    · simp only [getAnomalyTooltip, if_neg hni, if_pos hsev]
      refine ⟨?_, ?_, fun _ => ?_, ?_⟩
      · exact ⟨("⚠️ Extreme outlier! ").data,
          ("% " ++ (if a.type = some .high then "above" else "below") ++
            " average (deviation: " ++
            toFixed 2 (jsAbs (jsSub v
              (if a.type = some .high then s.upperBound else s.lowerBound))) ++ ")").data,
          by simp [String.data_append, List.append_assoc]⟩
      · exact ⟨("⚠️ Extreme outlier! " ++
            toFixed 1 (jsMulC 100 (jsDiv (jsAbs (jsSub v s.mean)) s.mean)) ++ "% ").data,
          (" average (deviation: " ++
            toFixed 2 (jsAbs (jsSub v
              (if a.type = some .high then s.upperBound else s.lowerBound))) ++ ")").data,
          by simp [String.data_append, List.append_assoc]⟩
      · exact ⟨("⚠️ Extreme outlier! " ++
            toFixed 1 (jsMulC 100 (jsDiv (jsAbs (jsSub v s.mean)) s.mean)) ++ "% " ++
            (if a.type = some .high then "above" else "below") ++
            " average (deviation: ").data,
          (")" : String).data,
          by simp [String.data_append, List.append_assoc]⟩
      · intro a' s' v' ha' _ hsev' heq
        have hni' : ¬(a'.isAnomaly = false) := by simp [ha']
        simp only [getAnomalyTooltip, if_neg hni', if_neg hsev'] at heq
        have h1 : (("⚠️ Extreme outlier! " ++
            toFixed 1 (jsMulC 100 (jsDiv (jsAbs (jsSub v s.mean)) s.mean)) ++ "% " ++
            (if a.type = some .high then "above" else "below") ++
            " average (deviation: " ++
            toFixed 2 (jsAbs (jsSub v
              (if a.type = some .high then s.upperBound else s.lowerBound))) ++
            ")").data).head? = some '⚠' := by
          simp [String.data_append]
        have h2 : (("📊 Outlier detected: " ++
            toFixed 1 (jsMulC 100 (jsDiv (jsAbs (jsSub v' s'.mean)) s'.mean)) ++ "% " ++
            (if a'.type = some .high then "above" else "below") ++
            " average").data).head? = some '📊' := by
          simp [String.data_append]
        rw [heq, h2] at h1
        cases h1
    · simp only [getAnomalyTooltip, if_neg hni, if_neg hsev]
      refine ⟨?_, ?_, fun h => absurd h hsev, ?_⟩
      · exact ⟨("📊 Outlier detected: ").data,
          ("% " ++ (if a.type = some .high then "above" else "below") ++ " average").data,
          by simp [String.data_append, List.append_assoc]⟩
      · exact ⟨("📊 Outlier detected: " ++
            toFixed 1 (jsMulC 100 (jsDiv (jsAbs (jsSub v s.mean)) s.mean)) ++ "% ").data,
          (" average" : String).data,
          by simp [String.data_append, List.append_assoc]⟩
      · intro a' s' v' ha' hsev'
        exact absurd hsev' hsev

/-- Witness for C8: the empty message and the direction word at concrete
inputs. -/
theorem getAnomalyTooltip_contract_witness :
    getAnomalyTooltip noAnomaly (statsOf (numericValues meanZeroValues)) (.fin 5) = "" ∧
    containsSub
      (if (⟨true, some .high, some .mild⟩ : AnomalyInfo).type = some .high
        then "above" else "below")
      (getAnomalyTooltip ⟨true, some .high, some .mild⟩
        (statsOf (numericValues meanZeroValues)) (.fin 5)) :=
  ⟨(getAnomalyTooltip_contract noAnomaly (statsOf (numericValues meanZeroValues))
      (.fin 5)).1 rfl,
   ((getAnomalyTooltip_contract ⟨true, some .high, some .mild⟩
      (statsOf (numericValues meanZeroValues)) (.fin 5)).2 rfl).2.1⟩
